import Mathlib

set_option maxHeartbeats 1000000

namespace AiCodeAgent

/-
Shallow embedding of the noahbclarkson/ai-code-agent repository.

Strings are modelled as lists of Unicode scalar values (Lean Char), which
is exactly the sequence of Rust char values of a Rust String.  The UTF-8
byte layer of Rust strings is modelled explicitly by utf8CharLen /
utf8Encode, because the report budgeter in src/external.rs mixes the byte
length (report.len()) with the scalar count (char_indices().nth(..)).
-/

/-- Number of bytes of the UTF-8 encoding of one Unicode scalar value;
models the per-char byte width that Rust str::len sums. -/
def utf8CharLen (c : Char) : Nat :=
  if c.toNat < 0x80 then 1
  else if c.toNat < 0x800 then 2
  else if c.toNat < 0x10000 then 3
  else 4

/-- Byte length of a string, models Rust String::len on the UTF-8 buffer. -/
def utf8Len (s : List Char) : Nat := (s.map utf8CharLen).sum

/-- The UTF-8 encoding of one scalar value as a byte list. -/
def utf8EncodeChar (c : Char) : List Nat :=
  if c.toNat < 0x80 then [c.toNat]
  else if c.toNat < 0x800 then
    [0xC0 + c.toNat / 64, 0x80 + c.toNat % 64]
  else if c.toNat < 0x10000 then
    [0xE0 + c.toNat / 4096, 0x80 + c.toNat / 64 % 64, 0x80 + c.toNat % 64]
  else
    [0xF0 + c.toNat / 262144, 0x80 + c.toNat / 4096 % 64,
     0x80 + c.toNat / 64 % 64, 0x80 + c.toNat % 64]

/-- The UTF-8 byte buffer of a whole string, models the memory of a Rust
String. -/
def utf8Encode (s : List Char) : List Nat := (s.map utf8EncodeChar).flatten

/-- The fixed truncation marker appended by generate_codebase_report
(src/external.rs line 48). -/
def truncation_marker : List Char :=
  ("\n\n--- REPORT TRUNCATED DUE TO TOKEN LIMIT ---").data

/-- Models Rust report.char_indices().nth(n): the byte offset and value of
the n-th scalar of the string, when it exists (src/external.rs line 46). -/
def char_indices_nth : List Char → Nat → Option (Nat × Char)
  | [], _ => none
  | c :: _, 0 => some (0, c)
  | c :: rest, n + 1 =>
    (char_indices_nth rest n).map (fun p => (utf8CharLen c + p.1, p.2))

/-- Models Rust String::truncate(idx): keep the scalars fully contained in
the first idx bytes (idx is always a char boundary at the call site,
src/external.rs line 47). -/
def truncateBytes : List Char → Nat → List Char
  | [], _ => []
  | c :: rest, idx =>
    if utf8CharLen c ≤ idx then c :: truncateBytes rest (idx - utf8CharLen c)
    else []

/-- The budgeting step of generate_codebase_report (src/external.rs lines
40 to 50): when the byte length exceeds the limit, cut at the byte offset
of the limit-th scalar (when that scalar exists) and append the marker. -/
def budgetReport (report : List Char) (token_char_limit : Nat) : List Char :=
  if utf8Len report > token_char_limit then
    match char_indices_nth report token_char_limit with
    | some (idx, _) => truncateBytes report idx ++ truncation_marker
    | none => report
  else report

theorem utf8CharLen_pos (c : Char) : 1 ≤ utf8CharLen c := by
  unfold utf8CharLen
  split_ifs <;> norm_num

theorem utf8Len_nil : utf8Len [] = 0 := rfl

theorem utf8Len_cons (c : Char) (s : List Char) :
    utf8Len (c :: s) = utf8CharLen c + utf8Len s := by
  simp [utf8Len]

theorem length_le_utf8Len (s : List Char) : s.length ≤ utf8Len s := by
  induction s with
  | nil => simp [utf8Len]
  | cons c rest ih =>
    have := utf8CharLen_pos c
    rw [utf8Len_cons]
    simp only [List.length_cons]
    omega

theorem char_indices_nth_none (s : List Char) (n : Nat) (h : s.length ≤ n) :
    char_indices_nth s n = none := by
  induction s generalizing n with
  | nil => rfl
  | cons c rest ih =>
    cases n with
    | zero => simp at h
    | succ m =>
      simp only [List.length_cons, Nat.succ_le_succ_iff] at h
      simp [char_indices_nth, ih m h]

theorem char_indices_nth_some (s : List Char) (n : Nat) (h : n < s.length) :
    char_indices_nth s n = some (utf8Len (s.take n), s.get ⟨n, h⟩) := by
  induction s generalizing n with
  | nil => simp at h
  | cons c rest ih =>
    cases n with
    | zero => simp [char_indices_nth, utf8Len]
    | succ m =>
      simp only [List.length_cons, Nat.succ_lt_succ_iff] at h
      simp [char_indices_nth, ih m h, utf8Len_cons]

theorem truncateBytes_boundary (s : List Char) (n : Nat) :
    truncateBytes s (utf8Len (s.take n)) = s.take n := by
  induction s generalizing n with
  | nil => simp [truncateBytes]
  | cons c rest ih =>
    cases n with
    | zero =>
      have := utf8CharLen_pos c
      simp only [List.take_zero, utf8Len_nil, truncateBytes]
      rw [if_neg (by omega)]
    | succ m =>
      simp only [List.take_succ_cons, utf8Len_cons, truncateBytes]
      rw [if_pos (by omega)]
      congr 1
      rw [Nat.add_sub_cancel_left]
      exact ih m

theorem budget_shape_cases (report : List Char) (limit : Nat) :
    (report.length ≤ limit → budgetReport report limit = report) ∧
    (limit < report.length →
      budgetReport report limit = report.take limit ++ truncation_marker) := by
  constructor
  · intro h
    unfold budgetReport
    split
    · rw [char_indices_nth_none report limit h]
    · rfl
  · intro h
    have hb : utf8Len report > limit :=
      lt_of_lt_of_le h (length_le_utf8Len report)
    unfold budgetReport
    rw [if_pos hb, char_indices_nth_some report limit h]
    show truncateBytes report (utf8Len (report.take limit)) ++
        truncation_marker = report.take limit ++ truncation_marker
    rw [truncateBytes_boundary]

/-- C1: for every report and limit, budgeting returns the report unchanged
when its length in Unicode scalar values is at or below the limit, and
otherwise returns exactly the first limit scalar values followed by the
fixed truncation marker; these two cases cover every input. -/
theorem budget_shape (report : List Char) (limit : Nat) :
    (report.length ≤ limit → budgetReport report limit = report) ∧
    (limit < report.length →
      budgetReport report limit = report.take limit ++ truncation_marker) :=
  budget_shape_cases report limit

/-- Witness for C1 at concrete inputs: a short report is returned
unchanged, a long one is cut to the limit and marked. -/
theorem budget_shape_witness :
    budgetReport ("ab").data 5 = ("ab").data ∧
    budgetReport ("abc").data 2 = ("abc").data.take 2 ++ truncation_marker :=
  ⟨(budget_shape ("ab").data 5).1 (by decide),
   (budget_shape ("abc").data 2).2 (by decide)⟩

theorem length_utf8EncodeChar (c : Char) :
    (utf8EncodeChar c).length = utf8CharLen c := by
  unfold utf8EncodeChar utf8CharLen
  split_ifs <;> rfl

theorem length_utf8Encode (s : List Char) :
    (utf8Encode s).length = utf8Len s := by
  induction s with
  | nil => rfl
  | cons c rest ih =>
    simp [utf8Encode, utf8Len_cons, length_utf8EncodeChar,
      ← ih, utf8Encode]

theorem utf8Encode_append (a b : List Char) :
    utf8Encode (a ++ b) = utf8Encode a ++ utf8Encode b := by
  simp [utf8Encode]

/-- C8: when truncation fires, the cut happens exactly at a scalar-value
boundary: the output is the first limit scalar values plus the marker, and
at the byte level the kept prefix of the UTF-8 buffer is exactly the
encoding of those scalar values, so no encoded character is ever split. -/
theorem budget_char_boundary (report : List Char) (limit : Nat)
    (h : limit < report.length) :
    budgetReport report limit = report.take limit ++ truncation_marker ∧
    (utf8Encode report).take (utf8Len (report.take limit)) =
      utf8Encode (report.take limit) := by
  refine ⟨(budget_shape_cases report limit).2 h, ?_⟩
  have hsplit : utf8Encode report =
      utf8Encode (report.take limit) ++ utf8Encode (report.drop limit) := by
    rw [← utf8Encode_append, List.take_append_drop]
  rw [hsplit, ← length_utf8Encode]
  exact List.take_left _ _

/-- Witness for C8: a report of two 2-byte characters cut at limit 1. -/
theorem budget_char_boundary_witness :
    budgetReport ("αβ").data 1 = ("αβ").data.take 1 ++ truncation_marker ∧
    (utf8Encode ("αβ").data).take (utf8Len (("αβ").data.take 1)) =
      utf8Encode (("αβ").data.take 1) :=
  budget_char_boundary ("αβ").data 1 (by decide)

/-
Key rotation (src/llm.rs, GeminiClient::get_next_api_key, lines 37 to 45).
The VecDeque of api keys is modelled as a list; pop_front plus push_back
is front removal plus back insertion.  The panic on an empty pool is
modelled by the none branch of the Option result.
-/

/-- Models GeminiClient::get_next_api_key: pop the front key, push it to
the back, return it; none models the panic on an empty pool. -/
def get_next_api_key : List String → Option (String × List String)
  | [] => none
  | key :: rest => some (key, rest ++ [key])

/-- The pool after one rotation (the second component of
get_next_api_key). -/
def rotateOnce (pool : List String) : List String :=
  match pool with
  | [] => []
  | key :: rest => rest ++ [key]

/-- The pool after n rotations. -/
def poolAfter (pool : List String) (n : Nat) : List String :=
  rotateOnce^[n] pool

/-- The key handed out by the n-th call to get_next_api_key (0-based). -/
def keyAt (pool : List String) (n : Nat) : String :=
  (poolAfter pool n).headI

/-- The sequence of keys handed out by m sequential get_next_api_key
calls. -/
def drawKeys : List String → Nat → List String
  | _, 0 => []
  | pool, m + 1 =>
    match get_next_api_key pool with
    | none => []
    | some (key, pool') => key :: drawKeys pool' m

theorem get_next_api_key_cons (k : String) (t : List String) :
    get_next_api_key (k :: t) = some (k, t ++ [k]) := rfl

theorem rotateOnce_cons (k : String) (t : List String) :
    rotateOnce (k :: t) = t ++ [k] := rfl

theorem get_next_api_key_eq (pool : List String) (hp : pool ≠ []) :
    get_next_api_key pool = some (pool.headI, rotateOnce pool) := by
  cases pool with
  | nil => exact absurd rfl hp
  | cons k t => rfl

theorem rotateOnce_eq_rotate (pool : List String) :
    rotateOnce pool = pool.rotate 1 := by
  cases pool with
  | nil => rfl
  | cons k t => rw [rotateOnce_cons, List.rotate_cons_succ, List.rotate_zero]

theorem poolAfter_zero (pool : List String) : poolAfter pool 0 = pool := rfl

theorem poolAfter_succ (pool : List String) (n : Nat) :
    poolAfter pool (n + 1) = rotateOnce (poolAfter pool n) := by
  simp [poolAfter, Function.iterate_succ_apply']

theorem poolAfter_succ_shift (pool : List String) (n : Nat) :
    poolAfter pool (n + 1) = poolAfter (rotateOnce pool) n := by
  simp [poolAfter, Function.iterate_succ_apply]

theorem poolAfter_eq_rotate (pool : List String) (n : Nat) :
    poolAfter pool n = pool.rotate n := by
  induction n with
  | zero => rw [poolAfter_zero, List.rotate_zero]
  | succ m ih =>
    rw [poolAfter_succ, ih, rotateOnce_eq_rotate, List.rotate_rotate]

theorem rotateOnce_ne_nil (pool : List String) (hp : pool ≠ []) :
    rotateOnce pool ≠ [] := by
  cases pool with
  | nil => exact absurd rfl hp
  | cons k t => simp [rotateOnce_cons]

theorem poolAfter_ne_nil (pool : List String) (hp : pool ≠ []) (n : Nat) :
    poolAfter pool n ≠ [] := by
  rw [poolAfter_eq_rotate]
  simpa [List.rotate_eq_nil_iff] using hp

theorem drawKeys_nil (m : Nat) : drawKeys [] m = [] := by
  cases m <;> rfl

theorem rotateOnce_nil : rotateOnce [] = [] := rfl

theorem poolAfter_nil (n : Nat) : poolAfter [] n = [] := by
  induction n with
  | zero => rfl
  | succ m ih => rw [poolAfter_succ, ih, rotateOnce_nil]

theorem drawKeys_block (xs : List String) :
    ∀ ys : List String,
      drawKeys (xs ++ ys) xs.length = xs ∧
      poolAfter (xs ++ ys) xs.length = ys ++ xs := by
  induction xs with
  | nil => intro ys; simp [drawKeys, poolAfter_zero]
  | cons x xs ih =>
    intro ys
    have hassoc : (xs ++ ys) ++ [x] = xs ++ (ys ++ [x]) := by
      simp [List.append_assoc]
    constructor
    · show x :: drawKeys ((xs ++ ys) ++ [x]) xs.length = x :: xs
      rw [hassoc, (ih (ys ++ [x])).1]
    · show poolAfter (x :: (xs ++ ys)) (xs.length + 1) = ys ++ (x :: xs)
      rw [poolAfter_succ_shift, rotateOnce_cons, hassoc, (ih (ys ++ [x])).2]
      simp

theorem drawKeys_cycle (pool : List String) :
    drawKeys pool pool.length = pool := by
  have h := (drawKeys_block pool []).1
  simpa using h

theorem poolAfter_cycle (pool : List String) :
    poolAfter pool pool.length = pool := by
  have h := (drawKeys_block pool []).2
  simpa using h

theorem drawKeys_add (m : Nat) :
    ∀ (pool : List String) (n : Nat),
      drawKeys pool (m + n) =
        drawKeys pool m ++ drawKeys (poolAfter pool m) n := by
  induction m with
  | zero => intro pool n; simp [drawKeys, poolAfter_zero]
  | succ k ih =>
    intro pool n
    cases pool with
    | nil => simp [drawKeys_nil, poolAfter_nil]
    | cons key rest =>
      have hshift : k + 1 + n = (k + n) + 1 := by omega
      rw [hshift]
      show key :: drawKeys (rest ++ [key]) (k + n) =
        (key :: drawKeys (rest ++ [key]) k) ++
          drawKeys (poolAfter (key :: rest) (k + 1)) n
      rw [ih (rest ++ [key]) n, poolAfter_succ_shift, rotateOnce_cons]
      rfl

theorem drawKeys_mul (pool : List String) (q : Nat) :
    drawKeys pool (q * pool.length) = (List.replicate q pool).flatten := by
  induction q with
  | zero => simp [drawKeys]
  | succ k ih =>
    have hm : (k + 1) * pool.length = pool.length + k * pool.length := by ring
    rw [hm, drawKeys_add pool.length pool (k * pool.length),
      drawKeys_cycle, poolAfter_cycle, ih, List.replicate_succ,
      List.flatten_cons]

theorem count_flatten_replicate (pool : List String) (q : Nat)
    (key : String) :
    ((List.replicate q pool).flatten).count key = q * pool.count key := by
  induction q with
  | zero => simp
  | succ k ih =>
    rw [List.replicate_succ, List.flatten_cons, List.count_append, ih]
    ring

/-- C3: get_next_api_key returns the front credential and leaves the pool
rotated left by one; the length and the multiset of credentials are
invariant under every number of rotations; and q times N sequential calls
return the pool cycled q times, so every credential is handed out exactly
q = M / N times, in the original relative order repeating. -/
theorem rotation_round_robin (pool : List String) (hp : pool ≠ []) :
    get_next_api_key pool = some (pool.headI, rotateOnce pool) ∧
    (∀ n : Nat, (poolAfter pool n).length = pool.length ∧
      (poolAfter pool n).Perm pool) ∧
    (∀ q : Nat,
      drawKeys pool (q * pool.length) = (List.replicate q pool).flatten ∧
      ∀ key : String,
        (drawKeys pool (q * pool.length)).count key =
          q * pool.count key) := by
  refine ⟨get_next_api_key_eq pool hp, ?_, ?_⟩
  · intro n
    rw [poolAfter_eq_rotate]
    exact ⟨List.length_rotate pool n, List.rotate_perm pool n⟩
  · intro q
    exact ⟨drawKeys_mul pool q, fun key => by
      rw [drawKeys_mul, count_flatten_replicate]⟩

/-- Witness for C3 on a concrete two-key pool, drawing two full cycles. -/
theorem rotation_round_robin_witness :
    get_next_api_key ["k1", "k2"] =
      some ((["k1", "k2"] : List String).headI, rotateOnce ["k1", "k2"]) ∧
    drawKeys ["k1", "k2"] (2 * (["k1", "k2"] : List String).length) =
      (List.replicate 2 ["k1", "k2"]).flatten ∧
    (drawKeys ["k1", "k2"] (2 * (["k1", "k2"] : List String).length)).count
      "k1" = 2 * (["k1", "k2"] : List String).count "k1" := by
  have h := rotation_round_robin ["k1", "k2"] (by simp)
  exact ⟨h.1, (h.2.2 2).1, (h.2.2 2).2 "k1"⟩

/-
The query engine (src/llm.rs, GeminiClient::query, lines 163 to 223).
The provider is modelled by an environment giving, for each attempt
number, the outcome of the chat completion call: ok with a list of
choices (each choice being the optional message content of the source
response shape) or a transport error.  Request construction
(CreateChatCompletionRequestArgs::build and the message builds) is a
pure function of the fixed model, system and user strings, hence one
value per query invocation.  The execution is instrumented with a trace
of rotation, dispatch and sleep events; the none result models the panic
of get_next_api_key on an empty pool.
-/

/-- The error enum LlmError of src/llm.rs lines 14 to 20: Api wraps the
underlying OpenAI transport or protocol error, NoContent is the missing
response content case. -/
inductive LlmError where
  | Api (detail : String)
  | NoContent
deriving DecidableEq

/-- Outcome of one chat completion dispatch: a response with its list of
optional message contents, or a transport error. -/
inductive DispatchResult where
  | ok (choices : List (Option String))
  | err (detail : String)
deriving DecidableEq

/-- Behaviour of the outside world during one query invocation. -/
structure QueryEnv where
  buildResult : Except String Unit
  dispatch : Nat → DispatchResult

/-- Observable steps of a query invocation: a key drawn from the rotator,
a dispatch of attempt number i (0-based) with the key it uses, a backoff
sleep of the given number of seconds. -/
inductive Event where
  | rotated (key : String)
  | dispatched (attempt : Nat) (key : String)
  | slept (secs : Nat)
deriving DecidableEq

/-- Models response.choices.first().and_then(content).cloned()
.ok_or(LlmError::NoContent) (src/llm.rs lines 185 to 188). -/
def extractContent (choices : List (Option String)) :
    Except LlmError String :=
  match choices.head?.bind id with
  | some content => Except.ok content
  | none => Except.error LlmError.NoContent

/-- The fixed backoff schedule RETRY_DELAYS of src/llm.rs line 164. -/
def RETRY_DELAYS : List Nat := [10, 30, 65]

/-- One execution of the retry loop of query from a given remaining
delay schedule, attempt number and pool: returns the result, the final
pool and the event trace, or none when get_next_api_key panics.  The nil
schedule case is the final attempt after the for loop (src/llm.rs lines
198 to 222); the cons case is one iteration of the for loop (lines 166
to 196). -/
def queryLoop (env : QueryEnv) :
    List Nat → Nat → List String →
    Option (Except LlmError String × List String × List Event)
  | [], attempt, pool =>
    match get_next_api_key pool with
    | none => none
    | some (key, pool') =>
      match env.buildResult with
      | Except.error e =>
        some (Except.error (LlmError.Api e), pool', [Event.rotated key])
      | Except.ok _ =>
        match env.dispatch attempt with
        | DispatchResult.ok choices =>
          some (extractContent choices, pool',
            [Event.rotated key, Event.dispatched attempt key])
        | DispatchResult.err e =>
          some (Except.error (LlmError.Api e), pool',
            [Event.rotated key, Event.dispatched attempt key])
  | delay :: rest, attempt, pool =>
    match get_next_api_key pool with
    | none => none
    | some (key, pool') =>
      match env.buildResult with
      | Except.error e =>
        some (Except.error (LlmError.Api e), pool', [Event.rotated key])
      | Except.ok _ =>
        match env.dispatch attempt with
        | DispatchResult.ok choices =>
          some (extractContent choices, pool',
            [Event.rotated key, Event.dispatched attempt key])
        | DispatchResult.err _ =>
          (queryLoop env rest (attempt + 1) pool').map
            (fun r => (r.1, r.2.1,
              Event.rotated key :: Event.dispatched attempt key ::
                Event.slept delay :: r.2.2))

/-- GeminiClient::query: run the retry loop over the whole schedule
starting at attempt 0. -/
def query (env : QueryEnv) (pool : List String) :
    Option (Except LlmError String × List String × List Event) :=
  queryLoop env RETRY_DELAYS 0 pool

/-- Attempt numbers and keys of the dispatch events of a trace. -/
def dispatchedEvents (tr : List Event) : List (Nat × String) :=
  tr.filterMap fun ev =>
    match ev with
    | Event.dispatched i k => some (i, k)
    | _ => none

/-- Keys of the dispatch events of a trace, in order. -/
def dispatchedKeys (tr : List Event) : List String :=
  tr.filterMap fun ev =>
    match ev with
    | Event.dispatched _ k => some k
    | _ => none

/-- Keys of the rotation events of a trace, in order. -/
def rotatedKeys (tr : List Event) : List String :=
  tr.filterMap fun ev =>
    match ev with
    | Event.rotated k => some k
    | _ => none

/-- Sleep durations of a trace, in order. -/
def sleptSecs (tr : List Event) : List Nat :=
  tr.filterMap fun ev =>
    match ev with
    | Event.slept d => some d
    | _ => none

/-- The trace component of a query result (empty on panic). -/
def traceOf (r : Option (Except LlmError String × List String × List Event)) :
    List Event :=
  match r with
  | none => []
  | some x => x.2.2

/-- The final pool component of a query result. -/
def finalPoolOf
    (r : Option (Except LlmError String × List String × List Event)) :
    Option (List String) :=
  r.map fun x => x.2.1

theorem queryLoop_build_err (env : QueryEnv) (ds : List Nat) (a : Nat)
    (pool : List String) (k : String) (t : List String)
    (hpool : pool = k :: t) (msg : String)
    (hb : env.buildResult = Except.error msg) :
    queryLoop env ds a pool =
      some (Except.error (LlmError.Api msg), t ++ [k], [Event.rotated k]) := by
  subst hpool
  cases ds <;> simp [queryLoop, get_next_api_key, hb]

theorem queryLoop_cons_ok (env : QueryEnv) (d : Nat) (ds : List Nat)
    (a : Nat) (pool : List String) (k : String) (t : List String)
    (hpool : pool = k :: t) (hb : env.buildResult = Except.ok ())
    (choices : List (Option String))
    (hd : env.dispatch a = DispatchResult.ok choices) :
    queryLoop env (d :: ds) a pool =
      some (extractContent choices, t ++ [k],
        [Event.rotated k, Event.dispatched a k]) := by
  subst hpool
  simp [queryLoop, get_next_api_key, hb, hd]

theorem queryLoop_cons_err (env : QueryEnv) (d : Nat) (ds : List Nat)
    (a : Nat) (pool : List String) (k : String) (t : List String)
    (hpool : pool = k :: t) (hb : env.buildResult = Except.ok ())
    (msg : String) (hd : env.dispatch a = DispatchResult.err msg) :
    queryLoop env (d :: ds) a pool =
      (queryLoop env ds (a + 1) (t ++ [k])).map
        (fun r => (r.1, r.2.1,
          Event.rotated k :: Event.dispatched a k ::
            Event.slept d :: r.2.2)) := by
  subst hpool
  simp [queryLoop, get_next_api_key, hb, hd]

theorem queryLoop_nil_ok (env : QueryEnv) (a : Nat) (pool : List String)
    (k : String) (t : List String) (hpool : pool = k :: t)
    (hb : env.buildResult = Except.ok ())
    (choices : List (Option String))
    (hd : env.dispatch a = DispatchResult.ok choices) :
    queryLoop env [] a pool =
      some (extractContent choices, t ++ [k],
        [Event.rotated k, Event.dispatched a k]) := by
  subst hpool
  simp [queryLoop, get_next_api_key, hb, hd]

theorem queryLoop_nil_err (env : QueryEnv) (a : Nat) (pool : List String)
    (k : String) (t : List String) (hpool : pool = k :: t)
    (hb : env.buildResult = Except.ok ()) (msg : String)
    (hd : env.dispatch a = DispatchResult.err msg) :
    queryLoop env [] a pool =
      some (Except.error (LlmError.Api msg), t ++ [k],
        [Event.rotated k, Event.dispatched a k]) := by
  subst hpool
  simp [queryLoop, get_next_api_key, hb, hd]

/-- C9: on an empty credential pool, get_next_api_key hits its panic
branch (modelled by none): it never returns a key, and a query on an
empty pool aborts through the same panic rather than returning through
the recoverable LlmError channel. -/
theorem empty_pool_panics :
    get_next_api_key ([] : List String) = none ∧
    ∀ env : QueryEnv, query env [] = none := by
  exact ⟨rfl, fun env => rfl⟩

theorem exists_rotation_chain (pool : List String) (hp : pool ≠ []) :
    ∃ k0 t0 k1 t1 k2 t2 k3 t3,
      pool = k0 :: t0 ∧
      t0 ++ [k0] = k1 :: t1 ∧
      t1 ++ [k1] = k2 :: t2 ∧
      t2 ++ [k2] = k3 :: t3 ∧
      keyAt pool 0 = k0 ∧ keyAt pool 1 = k1 ∧
      keyAt pool 2 = k2 ∧ keyAt pool 3 = k3 ∧
      poolAfter pool 1 = t0 ++ [k0] ∧ poolAfter pool 2 = t1 ++ [k1] ∧
      poolAfter pool 3 = t2 ++ [k2] ∧ poolAfter pool 4 = t3 ++ [k3] := by
  obtain ⟨k0, t0, h0⟩ := List.exists_cons_of_ne_nil hp
  have r1 : rotateOnce pool = t0 ++ [k0] := by rw [h0, rotateOnce_cons]
  have n1 : rotateOnce pool ≠ [] := rotateOnce_ne_nil pool hp
  obtain ⟨k1, t1, h1⟩ := List.exists_cons_of_ne_nil (r1 ▸ n1)
  have r2 : rotateOnce (t0 ++ [k0]) = t1 ++ [k1] := by
    rw [h1, rotateOnce_cons]
  have n2 : rotateOnce (t0 ++ [k0]) ≠ [] := by
    rw [h1]; exact rotateOnce_ne_nil _ (by simp)
  obtain ⟨k2, t2, h2⟩ := List.exists_cons_of_ne_nil (r2 ▸ n2)
  have r3 : rotateOnce (t1 ++ [k1]) = t2 ++ [k2] := by
    rw [h2, rotateOnce_cons]
  have n3 : rotateOnce (t1 ++ [k1]) ≠ [] := by
    rw [h2]; exact rotateOnce_ne_nil _ (by simp)
  obtain ⟨k3, t3, h3⟩ := List.exists_cons_of_ne_nil (r3 ▸ n3)
  have p1 : poolAfter pool 1 = t0 ++ [k0] := by
    rw [poolAfter_succ, poolAfter_zero, r1]
  have p2 : poolAfter pool 2 = t1 ++ [k1] := by
    rw [poolAfter_succ, p1, r2]
  have p3 : poolAfter pool 3 = t2 ++ [k2] := by
    rw [poolAfter_succ, p2, r3]
  have p4 : poolAfter pool 4 = t3 ++ [k3] := by
    rw [poolAfter_succ, p3, h3, rotateOnce_cons]
  refine ⟨k0, t0, k1, t1, k2, t2, k3, t3, h0, h1, h2, h3,
    ?_, ?_, ?_, ?_, p1, p2, p3, p4⟩
  · rw [keyAt, poolAfter_zero, h0, List.headI_cons]
  · rw [keyAt, p1, h1, List.headI_cons]
  · rw [keyAt, p2, h2, List.headI_cons]
  · rw [keyAt, p3, h3, List.headI_cons]

/-- C2: when request construction succeeds and every dispatch fails with
a transport error, query makes exactly RETRY_DELAYS.length + 1 = 4
attempts, sleeping 10, 30 and 65 seconds in order between them, each
with a freshly rotated key, and returns the failure of the final fourth
attempt (attempt index 3) wrapped as an Api error; the trace shows no
fifth attempt. -/
theorem retry_exhaustion (env : QueryEnv) (pool : List String)
    (hp : pool ≠ []) (hb : env.buildResult = Except.ok ())
    (e : Nat → String)
    (hf : ∀ i, env.dispatch i = DispatchResult.err (e i)) :
    query env pool =
      some (Except.error (LlmError.Api (e 3)), poolAfter pool 4,
        [Event.rotated (keyAt pool 0), Event.dispatched 0 (keyAt pool 0),
         Event.slept 10,
         Event.rotated (keyAt pool 1), Event.dispatched 1 (keyAt pool 1),
         Event.slept 30,
         Event.rotated (keyAt pool 2), Event.dispatched 2 (keyAt pool 2),
         Event.slept 65,
         Event.rotated (keyAt pool 3),
         Event.dispatched 3 (keyAt pool 3)]) ∧
    RETRY_DELAYS.length + 1 = 4 := by
  obtain ⟨k0, t0, k1, t1, k2, t2, k3, t3, h0, h1, h2, h3,
    K0, K1, K2, K3, p1, p2, p3, p4⟩ := exists_rotation_chain pool hp
  refine ⟨?_, rfl⟩
  have step0 := queryLoop_cons_err env 10 [30, 65] 0 pool k0 t0 h0 hb
    (e 0) (hf 0)
  have step1 := queryLoop_cons_err env 30 [65] 1 (t0 ++ [k0]) k1 t1 h1 hb
    (e 1) (hf 1)
  have step2 := queryLoop_cons_err env 65 [] 2 (t1 ++ [k1]) k2 t2 h2 hb
    (e 2) (hf 2)
  have step3 := queryLoop_nil_err env 3 (t2 ++ [k2]) k3 t3 h3 hb
    (e 3) (hf 3)
  show queryLoop env [10, 30, 65] 0 pool = _
  rw [step0, step1, step2, step3]
  simp only [Option.map_some']
  rw [K0, K1, K2, K3, p4]

/-- Witness environment whose dispatches always fail with the same
transport error. -/
def allFailEnv : QueryEnv where
  buildResult := Except.ok ()
  dispatch := fun _ => DispatchResult.err "boom"

/-- Witness for C2: the all-failing environment on a two-key pool. -/
theorem retry_exhaustion_witness :
    query allFailEnv ["k1", "k2"] =
      some (Except.error (LlmError.Api "boom"),
        poolAfter ["k1", "k2"] 4,
        [Event.rotated (keyAt ["k1", "k2"] 0),
         Event.dispatched 0 (keyAt ["k1", "k2"] 0), Event.slept 10,
         Event.rotated (keyAt ["k1", "k2"] 1),
         Event.dispatched 1 (keyAt ["k1", "k2"] 1), Event.slept 30,
         Event.rotated (keyAt ["k1", "k2"] 2),
         Event.dispatched 2 (keyAt ["k1", "k2"] 2), Event.slept 65,
         Event.rotated (keyAt ["k1", "k2"] 3),
         Event.dispatched 3 (keyAt ["k1", "k2"] 3)]) ∧
    RETRY_DELAYS.length + 1 = 4 :=
  retry_exhaustion allFailEnv ["k1", "k2"] (by simp)
    rfl (fun _ => "boom") (fun _ => rfl)

/-- C4: when the first dispatch succeeds at the transport level but its
response has no first choice with text content, the whole query fails
with NoContent on that first attempt: one dispatch event, no sleep, no
further attempts. -/
theorem no_content_not_retried (env : QueryEnv) (pool : List String)
    (hp : pool ≠ []) (hb : env.buildResult = Except.ok ())
    (choices : List (Option String))
    (hd : env.dispatch 0 = DispatchResult.ok choices)
    (hc : choices.head?.bind id = none) :
    query env pool =
      some (Except.error LlmError.NoContent, rotateOnce pool,
        [Event.rotated pool.headI, Event.dispatched 0 pool.headI]) := by
  obtain ⟨k0, t0, h0⟩ := List.exists_cons_of_ne_nil hp
  have step := queryLoop_cons_ok env 10 [30, 65] 0 pool k0 t0 h0 hb
    choices hd
  show queryLoop env [10, 30, 65] 0 pool = _
  rw [step, h0, rotateOnce_cons, List.headI_cons]
  unfold extractContent
  rw [hc]

/-- Witness environment whose first dispatch returns an empty choice
list. -/
def noContentEnv : QueryEnv where
  buildResult := Except.ok ()
  dispatch := fun _ => DispatchResult.ok []

/-- Witness for C4 on a concrete two-key pool. -/
theorem no_content_not_retried_witness :
    query noContentEnv ["k1", "k2"] =
      some (Except.error LlmError.NoContent, rotateOnce ["k1", "k2"],
        [Event.rotated (["k1", "k2"] : List String).headI,
         Event.dispatched 0 (["k1", "k2"] : List String).headI]) :=
  no_content_not_retried noContentEnv ["k1", "k2"] (by simp) rfl [] rfl rfl

/-- Environment whose request construction fails. -/
def buildFailEnv : QueryEnv where
  buildResult := Except.error "bad"
  dispatch := fun _ => DispatchResult.err "ignored"

/-- C10 counterexample: on the singleton pool, a build failure returns an
Api error immediately with no dispatch and no sleep, and the pool HAS
been rotated by one position, yet the resulting pool equals the initial
pool, so the shared rotation state IS left unchanged, contrary to the
final clause of the claim. -/
theorem build_failure_state_unchanged :
    query buildFailEnv ["k"] =
      some (Except.error (LlmError.Api "bad"), ["k"], [Event.rotated "k"]) ∧
    finalPoolOf (query buildFailEnv ["k"]) = some ["k"] ∧
    rotateOnce ["k"] = ["k"] := by
  refine ⟨rfl, rfl, rfl⟩

/-- C10 amended: when request construction fails, query returns an Api
error immediately, with no dispatch to the provider and no backoff sleep
(the trace holds a single rotation event), and the pool has been rotated
left by exactly one position; that rotated pool differs from the initial
state only when rotating the pool by one is not the identity. -/
theorem build_failure_immediate (env : QueryEnv) (pool : List String)
    (hp : pool ≠ []) (msg : String)
    (hb : env.buildResult = Except.error msg) :
    query env pool =
      some (Except.error (LlmError.Api msg), rotateOnce pool,
        [Event.rotated pool.headI]) := by
  obtain ⟨k0, t0, h0⟩ := List.exists_cons_of_ne_nil hp
  have step := queryLoop_build_err env RETRY_DELAYS 0 pool k0 t0 h0 msg hb
  show queryLoop env RETRY_DELAYS 0 pool = _
  rw [step, h0, rotateOnce_cons, List.headI_cons]

/-- Witness for C10 amended on a two-key pool (where the rotation is
visible in the final state). -/
theorem build_failure_immediate_witness :
    query buildFailEnv ["k1", "k2"] =
      some (Except.error (LlmError.Api "bad"), rotateOnce ["k1", "k2"],
        [Event.rotated (["k1", "k2"] : List String).headI]) :=
  build_failure_immediate buildFailEnv ["k1", "k2"] (by simp) "bad" rfl

/-- C6: when all dispatches before attempt K fail with transport errors
and the dispatch of attempt K (1-based, K at most schedule length plus
one) succeeds with text content, query returns that text with exactly K
dispatch events in its trace (no attempt K + 1) and exactly the first
K - 1 scheduled sleeps (no further backoff sleep). -/
theorem early_success (env : QueryEnv) (pool : List String)
    (hp : pool ≠ []) (hb : env.buildResult = Except.ok ())
    (K : Nat) (hK1 : 1 ≤ K) (hK : K ≤ RETRY_DELAYS.length + 1)
    (e : Nat → String)
    (hfail : ∀ i, i + 1 < K → env.dispatch i = DispatchResult.err (e i))
    (choices : List (Option String))
    (hd : env.dispatch (K - 1) = DispatchResult.ok choices)
    (txt : String) (hc : choices.head?.bind id = some txt) :
    ∃ tr, query env pool = some (Except.ok txt, poolAfter pool K, tr) ∧
      (dispatchedEvents tr).length = K ∧
      sleptSecs tr = RETRY_DELAYS.take (K - 1) := by
  obtain ⟨k0, t0, k1, t1, k2, t2, k3, t3, h0, h1, h2, h3,
    K0, K1, K2, K3, p1, p2, p3, p4⟩ := exists_rotation_chain pool hp
  have hext : extractContent choices = Except.ok txt := by
    unfold extractContent
    rw [hc]
  have hK4 : K ≤ 4 := by simpa [RETRY_DELAYS] using hK
  interval_cases K
  · refine ⟨[Event.rotated k0, Event.dispatched 0 k0], ?_, ?_, ?_⟩
    · show queryLoop env [10, 30, 65] 0 pool = _
      rw [queryLoop_cons_ok env 10 [30, 65] 0 pool k0 t0 h0 hb choices hd,
        hext, p1]
    · simp [dispatchedEvents]
    · simp [sleptSecs, RETRY_DELAYS]
  · refine ⟨[Event.rotated k0, Event.dispatched 0 k0, Event.slept 10,
      Event.rotated k1, Event.dispatched 1 k1], ?_, ?_, ?_⟩
    · show queryLoop env [10, 30, 65] 0 pool = _
      rw [queryLoop_cons_err env 10 [30, 65] 0 pool k0 t0 h0 hb (e 0)
          (hfail 0 (by omega)),
        queryLoop_cons_ok env 30 [65] 1 (t0 ++ [k0]) k1 t1 h1 hb choices hd,
        hext, p2]
      rfl
    · simp [dispatchedEvents]
    · simp [sleptSecs, RETRY_DELAYS]
  · refine ⟨[Event.rotated k0, Event.dispatched 0 k0, Event.slept 10,
      Event.rotated k1, Event.dispatched 1 k1, Event.slept 30,
      Event.rotated k2, Event.dispatched 2 k2], ?_, ?_, ?_⟩
    · show queryLoop env [10, 30, 65] 0 pool = _
      rw [queryLoop_cons_err env 10 [30, 65] 0 pool k0 t0 h0 hb (e 0)
          (hfail 0 (by omega)),
        queryLoop_cons_err env 30 [65] 1 (t0 ++ [k0]) k1 t1 h1 hb (e 1)
          (hfail 1 (by omega)),
        queryLoop_cons_ok env 65 [] 2 (t1 ++ [k1]) k2 t2 h2 hb choices hd,
        hext, p3]
      rfl
    · simp [dispatchedEvents]
    · simp [sleptSecs, RETRY_DELAYS]
  · refine ⟨[Event.rotated k0, Event.dispatched 0 k0, Event.slept 10,
      Event.rotated k1, Event.dispatched 1 k1, Event.slept 30,
      Event.rotated k2, Event.dispatched 2 k2, Event.slept 65,
      Event.rotated k3, Event.dispatched 3 k3], ?_, ?_, ?_⟩
    · show queryLoop env [10, 30, 65] 0 pool = _
      rw [queryLoop_cons_err env 10 [30, 65] 0 pool k0 t0 h0 hb (e 0)
          (hfail 0 (by omega)),
        queryLoop_cons_err env 30 [65] 1 (t0 ++ [k0]) k1 t1 h1 hb (e 1)
          (hfail 1 (by omega)),
        queryLoop_cons_err env 65 [] 2 (t1 ++ [k1]) k2 t2 h2 hb (e 2)
          (hfail 2 (by omega)),
        queryLoop_nil_ok env 3 (t2 ++ [k2]) k3 t3 h3 hb choices hd,
        hext, p4]
      rfl
    · simp [dispatchedEvents]
    · simp [sleptSecs, RETRY_DELAYS]

/-- Environment failing once, then succeeding with content. -/
def earlySuccessEnv : QueryEnv where
  buildResult := Except.ok ()
  dispatch := fun i =>
    if i = 0 then DispatchResult.err "boom"
    else DispatchResult.ok [some "hi"]

/-- Witness for C6 at K = 2 on a two-key pool. -/
theorem early_success_witness :
    ∃ tr, query earlySuccessEnv ["k1", "k2"] =
        some (Except.ok "hi", poolAfter ["k1", "k2"] 2, tr) ∧
      (dispatchedEvents tr).length = 2 ∧
      sleptSecs tr = RETRY_DELAYS.take (2 - 1) :=
  early_success earlySuccessEnv ["k1", "k2"] (by simp) rfl 2 (by omega)
    (by decide) (fun _ => "boom")
    (fun i hi => by
      have hi0 : i = 0 := by omega
      subst hi0
      rfl)
    [some "hi"] rfl "hi" rfl

theorem headI_eq_get (l : List String) (h : l ≠ []) :
    l.headI = l.get ⟨0, List.length_pos.mpr h⟩ := by
  cases l with
  | nil => exact absurd rfl h
  | cons a t => rfl

theorem keyAt_eq_get (pool : List String) (hp : pool ≠ []) (n : Nat) :
    keyAt pool n =
      pool.get ⟨n % pool.length,
        Nat.mod_lt n (List.length_pos.mpr hp)⟩ := by
  have hne : pool.rotate n ≠ [] := by
    simpa [List.rotate_eq_nil_iff] using hp
  rw [keyAt, poolAfter_eq_rotate, headI_eq_get _ hne, List.get_rotate]
  simp

theorem keyAt_succ_ne (pool : List String) (hnd : pool.Nodup)
    (h2 : 2 ≤ pool.length) (i : Nat) :
    keyAt pool i ≠ keyAt pool (i + 1) := by
  have hp : pool ≠ [] := by
    intro h
    rw [h] at h2
    simp at h2
  rw [keyAt_eq_get pool hp i, keyAt_eq_get pool hp (i + 1)]
  intro hEq
  have hfin := (List.Nodup.get_inj_iff hnd).mp hEq
  have hmod : i % pool.length = (i + 1) % pool.length := by
    simpa [Fin.mk.injEq] using hfin
  have h1N : (1 : Nat) % pool.length = 1 := Nat.mod_eq_of_lt (by omega)
  have hstep : (i + 1) % pool.length =
      (i % pool.length + 1) % pool.length := by
    conv_lhs => rw [Nat.add_mod, h1N]
  have hlt : i % pool.length < pool.length := Nat.mod_lt _ (by omega)
  rcases Nat.lt_or_ge (i % pool.length + 1) pool.length with hc | hc
  · rw [hstep, Nat.mod_eq_of_lt hc] at hmod
    omega
  · have hN : i % pool.length + 1 = pool.length := by omega
    rw [hstep, hN, Nat.mod_self] at hmod
    omega

theorem queryLoop_nil_any (env : QueryEnv) (a : Nat) (pool : List String)
    (k : String) (t : List String) (hpool : pool = k :: t)
    (hb : env.buildResult = Except.ok ()) :
    ∃ res, queryLoop env [] a pool =
      some (res, t ++ [k], [Event.rotated k, Event.dispatched a k]) := by
  cases hd : env.dispatch a with
  | ok choices =>
    exact ⟨extractContent choices,
      queryLoop_nil_ok env a pool k t hpool hb choices hd⟩
  | err msg =>
    exact ⟨Except.error (LlmError.Api msg),
      queryLoop_nil_err env a pool k t hpool hb msg hd⟩

/-- C5 counterexample: on the singleton pool, under an always-failing
provider, every one of the four attempts dispatches with the same
credential, so consecutive attempts DO reuse the previous credential,
contrary to the final clause of the claim. -/
theorem fresh_key_reuse_counterexample :
    dispatchedKeys (traceOf (query allFailEnv ["k"])) =
      ["k", "k", "k", "k"] ∧
    ¬ List.Chain' (fun a b => a ≠ b)
      (dispatchedKeys (traceOf (query allFailEnv ["k"]))) := by
  refine ⟨rfl, ?_⟩
  intro h
  have h4 : List.Chain' (fun a b => a ≠ b)
      (["k", "k", "k", "k"] : List String) := h
  exact (List.chain'_cons.mp h4).1 rfl

/-- C5 amended: within one query invocation, every attempt draws exactly
one fresh credential via the rotator before dispatching (the rotation
keys equal the dispatch keys, in order), attempt i uses the i-th
credential in rotation order, and consecutive attempts use distinct
credentials provided the pool holds at least two credentials and has no
duplicates (with a singleton or duplicated pool, the same credential can
recur). -/
theorem fresh_key_per_attempt (env : QueryEnv) (pool : List String)
    (hp : pool ≠ []) (hb : env.buildResult = Except.ok ()) :
    ∃ r p' tr, query env pool = some (r, p', tr) ∧
      rotatedKeys tr = dispatchedKeys tr ∧
      dispatchedEvents tr =
        (List.range (dispatchedEvents tr).length).map
          (fun i => (i, keyAt pool i)) ∧
      (pool.Nodup → 2 ≤ pool.length →
        List.Chain' (fun a b => a ≠ b) (dispatchedKeys tr)) := by
  obtain ⟨k0, t0, k1, t1, k2, t2, k3, t3, h0, h1, h2, h3,
    K0, K1, K2, K3, p1, p2, p3, p4⟩ := exists_rotation_chain pool hp
  cases hd0 : env.dispatch 0 with
  | ok ch0 =>
    refine ⟨extractContent ch0, t0 ++ [k0],
      [Event.rotated k0, Event.dispatched 0 k0], ?_, rfl, ?_, ?_⟩
    · show queryLoop env [10, 30, 65] 0 pool = _
      rw [queryLoop_cons_ok env 10 [30, 65] 0 pool k0 t0 h0 hb ch0 hd0]
    · simp [dispatchedEvents, List.range_succ, K0]
    · intro _ _
      simp [dispatchedKeys]
  | err e0 =>
    cases hd1 : env.dispatch 1 with
    | ok ch1 =>
      refine ⟨extractContent ch1, t1 ++ [k1],
        [Event.rotated k0, Event.dispatched 0 k0, Event.slept 10,
         Event.rotated k1, Event.dispatched 1 k1], ?_, rfl, ?_, ?_⟩
      · show queryLoop env [10, 30, 65] 0 pool = _
        rw [queryLoop_cons_err env 10 [30, 65] 0 pool k0 t0 h0 hb e0 hd0,
          queryLoop_cons_ok env 30 [65] 1 (t0 ++ [k0]) k1 t1 h1 hb ch1 hd1]
        rfl
      · simp [dispatchedEvents, List.range_succ, K0, K1]
      · intro hnd h2
        rw [show dispatchedKeys
            [Event.rotated k0, Event.dispatched 0 k0, Event.slept 10,
             Event.rotated k1, Event.dispatched 1 k1] = [k0, k1] from rfl,
          ← K0, ← K1]
        exact List.chain'_cons.mpr ⟨keyAt_succ_ne pool hnd h2 0, by simp⟩
    | err e1 =>
      cases hd2 : env.dispatch 2 with
      | ok ch2 =>
        refine ⟨extractContent ch2, t2 ++ [k2],
          [Event.rotated k0, Event.dispatched 0 k0, Event.slept 10,
           Event.rotated k1, Event.dispatched 1 k1, Event.slept 30,
           Event.rotated k2, Event.dispatched 2 k2], ?_, rfl, ?_, ?_⟩
        · show queryLoop env [10, 30, 65] 0 pool = _
          rw [queryLoop_cons_err env 10 [30, 65] 0 pool k0 t0 h0 hb e0 hd0,
            queryLoop_cons_err env 30 [65] 1 (t0 ++ [k0]) k1 t1 h1 hb e1 hd1,
            queryLoop_cons_ok env 65 [] 2 (t1 ++ [k1]) k2 t2 h2 hb ch2 hd2]
          rfl
        · simp [dispatchedEvents, List.range_succ, K0, K1, K2]
        · intro hnd h2'
          rw [show dispatchedKeys
              [Event.rotated k0, Event.dispatched 0 k0, Event.slept 10,
               Event.rotated k1, Event.dispatched 1 k1, Event.slept 30,
               Event.rotated k2, Event.dispatched 2 k2] =
              [k0, k1, k2] from rfl, ← K0, ← K1, ← K2]
          exact List.chain'_cons.mpr ⟨keyAt_succ_ne pool hnd h2' 0,
            List.chain'_cons.mpr ⟨keyAt_succ_ne pool hnd h2' 1, by simp⟩⟩
      | err e2 =>
        obtain ⟨res3, hnil⟩ :=
          queryLoop_nil_any env 3 (t2 ++ [k2]) k3 t3 h3 hb
        refine ⟨res3, t3 ++ [k3],
          [Event.rotated k0, Event.dispatched 0 k0, Event.slept 10,
           Event.rotated k1, Event.dispatched 1 k1, Event.slept 30,
           Event.rotated k2, Event.dispatched 2 k2, Event.slept 65,
           Event.rotated k3, Event.dispatched 3 k3], ?_, rfl, ?_, ?_⟩
        · show queryLoop env [10, 30, 65] 0 pool = _
          rw [queryLoop_cons_err env 10 [30, 65] 0 pool k0 t0 h0 hb e0 hd0,
            queryLoop_cons_err env 30 [65] 1 (t0 ++ [k0]) k1 t1 h1 hb e1 hd1,
            queryLoop_cons_err env 65 [] 2 (t1 ++ [k1]) k2 t2 h2 hb e2 hd2,
            hnil]
          rfl
        · simp [dispatchedEvents, List.range_succ, K0, K1, K2, K3]
        · intro hnd h2'
          rw [show dispatchedKeys
              [Event.rotated k0, Event.dispatched 0 k0, Event.slept 10,
               Event.rotated k1, Event.dispatched 1 k1, Event.slept 30,
               Event.rotated k2, Event.dispatched 2 k2, Event.slept 65,
               Event.rotated k3, Event.dispatched 3 k3] =
              [k0, k1, k2, k3] from rfl, ← K0, ← K1, ← K2, ← K3]
          exact List.chain'_cons.mpr ⟨keyAt_succ_ne pool hnd h2' 0,
            List.chain'_cons.mpr ⟨keyAt_succ_ne pool hnd h2' 1,
              List.chain'_cons.mpr ⟨keyAt_succ_ne pool hnd h2' 2, by simp⟩⟩⟩

/-- Witness for C5 amended on an all-failing run over a two-key pool. -/
theorem fresh_key_per_attempt_witness :
    ∃ r p' tr, query allFailEnv ["k1", "k2"] = some (r, p', tr) ∧
      rotatedKeys tr = dispatchedKeys tr ∧
      dispatchedEvents tr =
        (List.range (dispatchedEvents tr).length).map
          (fun i => (i, keyAt ["k1", "k2"] i)) ∧
      ((["k1", "k2"] : List String).Nodup →
        2 ≤ (["k1", "k2"] : List String).length →
        List.Chain' (fun a b => a ≠ b) (dispatchedKeys tr)) :=
  fresh_key_per_attempt allFailEnv ["k1", "k2"] (by simp) rfl

/-
The three two-stage prompt chains (src/llm.rs lines 55 to 161).
GeminiClient::query is abstracted by an oracle from (system, user) to a
result; each chain is instrumented to also return the list of (system,
user) pairs it sent, so that the never-invoked stage 2 after a stage-1
failure is observable.  The first component is exactly the return value
of the source function; the prompt texts are the source string literals
(format! interpolation becomes string concatenation).
-/

/-- The shape of GeminiClient::query as seen by the chains: system
instruction and user content to completion text or error. -/
def QueryOracle : Type := String → String → Except LlmError String

def feature_system_prompt_1 : String :=
  "You are a senior software architect with expertise in modern software design patterns and best practices.\n\nAnalyze the provided codebase report and create a high-level implementation plan for the requested feature.\n\nYour response should include:\n1. Architecture overview - how this feature fits into the existing system\n2. Key components/modules that will be affected or created\n3. High-level approach and design decisions\n4. Potential challenges and considerations\n5. Sequential implementation steps at a high level\n\nFocus on architectural clarity and maintainability."

def feature_user_prompt_1 (context prompt : String) : String :=
  "Codebase Report:\n" ++ context ++ "\n\nFeature Request: " ++ prompt

def feature_system_prompt_2 : String :=
  "You are a senior software engineer creating a detailed implementation guide.\n\nUsing the codebase report, feature request, and high-level plan, generate a comprehensive, actionable implementation plan.\n\nYour response MUST include:\n1. Specific file paths that need to be created or modified\n2. Detailed code snippets for key changes (not pseudocode - actual implementable code)\n3. Dependencies or packages that need to be added\n4. Database schema changes (if applicable)\n5. API endpoint specifications (if applicable)\n6. Testing strategy and test cases\n7. Step-by-step implementation order with clear explanations\n8. Edge cases and error handling considerations\n\nFormat your response in clear sections with markdown. Be specific and thorough."

def feature_user_prompt_2 (context prompt high_level_plan : String) :
    String :=
  "Codebase Report:\n" ++ context ++ "\n\nOriginal Feature Request: " ++
    prompt ++ "\n\nHigh-Level Plan:\n" ++ high_level_plan ++
    "\n\nNow provide the detailed implementation plan with specific file paths, code snippets, and clear instructions/explanations."

def bug_fix_system_prompt_1 : String :=
  "You are a senior software developer specializing in debugging and root cause analysis.\n\nAnalyze the provided codebase and bug description to identify the root cause.\n\nYour response should include:\n1. Root cause analysis - what is causing the bug?\n2. Affected components and files\n3. Why the current implementation is failing\n4. Impact assessment - what else might be affected?\n5. Proposed approach to fix the bug\n6. Potential side effects or risks of the fix\n\nBe thorough in your analysis and consider edge cases."

def bug_fix_user_prompt_1 (context prompt : String) : String :=
  "Codebase Report:\n" ++ context ++ "\n\nBug Description: " ++ prompt

def bug_fix_system_prompt_2 : String :=
  "You are a senior software engineer implementing bug fixes.\n\nUsing the codebase report, bug description, and root cause analysis, create a detailed remediation plan.\n\nYour response MUST include:\n1. Exact file paths that need to be modified\n2. Specific code changes with before/after snippets\n3. Why each change fixes the identified issue\n4. Additional validation or defensive checks to add\n5. Test cases to verify the fix and prevent regression\n6. Step-by-step implementation instructions\n7. Rollback plan if something goes wrong\n\nFormat your response in clear sections with markdown. Provide actual code, not pseudocode."

def bug_fix_user_prompt_2 (context prompt analysis : String) : String :=
  "Codebase Report:\n" ++ context ++ "\n\nBug Description: " ++ prompt ++
    "\n\nRoot Cause Analysis:\n" ++ analysis ++
    "\n\nNow provide the detailed fix implementation plan with specific file paths and code changes."

def explanation_system_prompt_1 : String :=
  "You are a principal engineer with expertise in code architecture and system design.\n\nAnalyze the codebase to identify all components relevant to the user\x27s query.\n\nYour response should include:\n1. Key files and modules related to the query\n2. Main architectural patterns or design approaches used\n3. Important concepts or abstractions\n4. Data flow and control flow overview\n5. Dependencies and relationships between components\n6. Any non-obvious implementation details\n\nFocus on providing a complete picture of the relevant system."

def explanation_user_prompt_1 (context prompt : String) : String :=
  "Codebase Report:\n" ++ context ++ "\n\nQuery: " ++ prompt

def explanation_system_prompt_2 : String :=
  "You are a principal engineer providing technical documentation and mentorship.\n\nUsing the codebase report and your previous analysis, create a comprehensive technical explanation.\n\nYour response MUST include:\n1. High-level overview of the system/component in question\n2. Detailed walkthrough of how the code works\n3. Specific file references with line-by-line explanations where helpful\n4. Code snippets highlighting key implementation details\n5. Explanation of design decisions and trade-offs\n6. Common pitfalls or gotchas developers should know\n7. How different components interact with each other\n8. Suggestions for where to look for specific functionality\n\nMake your explanation clear, well-structured, and educational. Use markdown formatting with code blocks."

def explanation_user_prompt_2 (context prompt key_points : String) :
    String :=
  "Codebase Report:\n" ++ context ++ "\n\nOriginal Query: " ++ prompt ++
    "\n\nKey Components Identified:\n" ++ key_points ++
    "\n\nNow provide a comprehensive technical explanation with code examples and clear structure."

/-- GeminiClient::generate_feature_plan (src/llm.rs lines 55 to 90),
instrumented with the list of issued (system, user) calls. -/
def generate_feature_plan (q : QueryOracle) (context prompt : String) :
    Except LlmError String × List (String × String) :=
  match q feature_system_prompt_1 (feature_user_prompt_1 context prompt) with
  | Except.error e =>
    (Except.error e,
      [(feature_system_prompt_1, feature_user_prompt_1 context prompt)])
  | Except.ok high_level_plan =>
    (q feature_system_prompt_2
        (feature_user_prompt_2 context prompt high_level_plan),
      [(feature_system_prompt_1, feature_user_prompt_1 context prompt),
       (feature_system_prompt_2,
        feature_user_prompt_2 context prompt high_level_plan)])

/-- GeminiClient::generate_bug_fix_plan (src/llm.rs lines 92 to 125),
instrumented with the list of issued (system, user) calls. -/
def generate_bug_fix_plan (q : QueryOracle) (context prompt : String) :
    Except LlmError String × List (String × String) :=
  match q bug_fix_system_prompt_1 (bug_fix_user_prompt_1 context prompt) with
  | Except.error e =>
    (Except.error e,
      [(bug_fix_system_prompt_1, bug_fix_user_prompt_1 context prompt)])
  | Except.ok analysis =>
    (q bug_fix_system_prompt_2
        (bug_fix_user_prompt_2 context prompt analysis),
      [(bug_fix_system_prompt_1, bug_fix_user_prompt_1 context prompt),
       (bug_fix_system_prompt_2,
        bug_fix_user_prompt_2 context prompt analysis)])

/-- GeminiClient::generate_explanation (src/llm.rs lines 127 to 161),
instrumented with the list of issued (system, user) calls. -/
def generate_explanation (q : QueryOracle) (context prompt : String) :
    Except LlmError String × List (String × String) :=
  match q explanation_system_prompt_1
      (explanation_user_prompt_1 context prompt) with
  | Except.error e =>
    (Except.error e,
      [(explanation_system_prompt_1,
        explanation_user_prompt_1 context prompt)])
  | Except.ok key_points =>
    (q explanation_system_prompt_2
        (explanation_user_prompt_2 context prompt key_points),
      [(explanation_system_prompt_1,
        explanation_user_prompt_1 context prompt),
       (explanation_system_prompt_2,
        explanation_user_prompt_2 context prompt key_points)])

/-- Contract of one two-stage chain: a stage-1 error is returned as is
with only the stage-1 call issued (stage 2 never invoked); on stage-1
success the final result is exactly the stage-2 oracle answer (text or
error, no partial result), stage 2 is called once after stage 1, and the
stage-2 user content contains the stage-1 output as a substring. -/
def chainSpecHolds
    (result : Except LlmError String × List (String × String))
    (q : QueryOracle) (sys1 user1 sys2 : String)
    (user2 : String → String) : Prop :=
  (∀ e, q sys1 user1 = Except.error e →
    result = (Except.error e, [(sys1, user1)])) ∧
  (∀ s1, q sys1 user1 = Except.ok s1 →
    result.1 = q sys2 (user2 s1) ∧
    result.2 = [(sys1, user1), (sys2, user2 s1)] ∧
    ∃ pre post, user2 s1 = pre ++ s1 ++ post)

/-- C7: each of the three two-stage chains returns exactly the stage-2
query result on stage-1 success (so the stage-2 text on success and the
stage-2 error on stage-2 failure, never a partial result), grounds the
stage-2 user content in the stage-1 output as a substring, and on a
stage-1 failure returns that error having never invoked stage 2. -/
theorem chain_two_stage (q : QueryOracle) (context prompt : String) :
    chainSpecHolds (generate_feature_plan q context prompt) q
      feature_system_prompt_1 (feature_user_prompt_1 context prompt)
      feature_system_prompt_2 (feature_user_prompt_2 context prompt) ∧
    chainSpecHolds (generate_bug_fix_plan q context prompt) q
      bug_fix_system_prompt_1 (bug_fix_user_prompt_1 context prompt)
      bug_fix_system_prompt_2 (bug_fix_user_prompt_2 context prompt) ∧
    chainSpecHolds (generate_explanation q context prompt) q
      explanation_system_prompt_1 (explanation_user_prompt_1 context prompt)
      explanation_system_prompt_2
      (explanation_user_prompt_2 context prompt) := by
  refine ⟨⟨?_, ?_⟩, ⟨?_, ?_⟩, ⟨?_, ?_⟩⟩
  · intro e he
    unfold generate_feature_plan
    rw [he]
  · intro s1 hs
    unfold generate_feature_plan
    rw [hs]
    refine ⟨rfl, rfl,
      "Codebase Report:\n" ++ context ++
        "\n\nOriginal Feature Request: " ++ prompt ++
        "\n\nHigh-Level Plan:\n",
      "\n\nNow provide the detailed implementation plan with specific file paths, code snippets, and clear instructions/explanations.",
      rfl⟩
  · intro e he
    unfold generate_bug_fix_plan
    rw [he]
  · intro s1 hs
    unfold generate_bug_fix_plan
    rw [hs]
    refine ⟨rfl, rfl,
      "Codebase Report:\n" ++ context ++ "\n\nBug Description: " ++
        prompt ++ "\n\nRoot Cause Analysis:\n",
      "\n\nNow provide the detailed fix implementation plan with specific file paths and code changes.",
      rfl⟩
  · intro e he
    unfold generate_explanation
    rw [he]
  · intro s1 hs
    unfold generate_explanation
    rw [hs]
    refine ⟨rfl, rfl,
      "Codebase Report:\n" ++ context ++ "\n\nOriginal Query: " ++
        prompt ++ "\n\nKey Components Identified:\n",
      "\n\nNow provide a comprehensive technical explanation with code examples and clear structure.",
      rfl⟩

/-- Oracle answering every call with the fixed text A. -/
def constOracle : QueryOracle := fun _ _ => Except.ok "A"

/-- Witness for C7 at a concrete oracle and concrete inputs. -/
theorem chain_two_stage_witness :
    chainSpecHolds (generate_feature_plan constOracle "ctx" "req")
      constOracle feature_system_prompt_1
      (feature_user_prompt_1 "ctx" "req") feature_system_prompt_2
      (feature_user_prompt_2 "ctx" "req") ∧
    chainSpecHolds (generate_bug_fix_plan constOracle "ctx" "req")
      constOracle bug_fix_system_prompt_1
      (bug_fix_user_prompt_1 "ctx" "req") bug_fix_system_prompt_2
      (bug_fix_user_prompt_2 "ctx" "req") ∧
    chainSpecHolds (generate_explanation constOracle "ctx" "req")
      constOracle explanation_system_prompt_1
      (explanation_user_prompt_1 "ctx" "req") explanation_system_prompt_2
      (explanation_user_prompt_2 "ctx" "req") :=
  chain_two_stage constOracle "ctx" "req"

end AiCodeAgent
